import Mathlib

/-!
Shallow embedding of the aether-engine-cli deployment client, written from the
Rust sources (`src/commands.rs`, `src/builder.rs`, `src/utils.rs`,
`src/s3_uploader.rs`, `src/api.rs`).  Strings are Lean `String`s (the sources
operate on UTF-8 `str`); filesystem, subprocess and network effects are
modelled by explicit oracles recording which fallible operation succeeds, and
by event traces listing the externally visible side effects in order.
-/

namespace Aether

/-- Decidable equality for `Except`, used to evaluate the models on concrete
inputs. -/
instance {ε α : Type} [DecidableEq ε] [DecidableEq α] :
    DecidableEq (Except ε α) := fun a b =>
  match a, b with
  | .error e, .error f =>
    if h : e = f then .isTrue (by rw [h]) else .isFalse (by simp [h])
  | .ok x, .ok y =>
    if h : x = y then .isTrue (by rw [h]) else .isFalse (by simp [h])
  | .error _, .ok _ => .isFalse (by simp)
  | .ok _, .error _ => .isFalse (by simp)

/-! ### Rust string primitives used by the log follow loop

`str::lines` splits at `\n`, additionally stripping a `\r` immediately before
the `\n`; a final line ending is optional, and a trailing `\r` not followed by
`\n` is kept.  `str::trim` removes leading and trailing whitespace (here ASCII
whitespace, which covers every character occurring in the claims). -/

/-- Strip one trailing carriage return, as Rust `lines` does for `\r\n`. -/
def stripTrailingCR (cs : List Char) : List Char :=
  if cs.getLast? = some '\r' then cs.dropLast else cs

/-- Core of `str::lines`: `acc` holds the current (reversed) line. -/
def rustLinesCore : List Char → List Char → List String
  | [], acc => if acc.isEmpty then [] else [String.mk acc.reverse]
  | c :: rest, acc =>
    if c = '\n' then String.mk (stripTrailingCR acc.reverse) :: rustLinesCore rest []
    else rustLinesCore rest (c :: acc)

/-- Rust `str::lines`, collected into a list. -/
def rustLines (s : String) : List String :=
  rustLinesCore s.data []

/-- Rust `str::trim` (ASCII whitespace). -/
def rustTrim (s : String) : String :=
  String.mk (((s.data.dropWhile Char.isWhitespace).reverse.dropWhile
    Char.isWhitespace).reverse)

/-! ### Log tail synchronizer (`logs_command` follow loop, commands.rs:594-639) -/

/-- One line printed by the follow loop: either a genuinely new log line
(`🔴 [ts] line`) or a "latest changed" notice (`🔄 [ts] Latest: line`).
The wall-clock timestamp is presentation only and is not modelled. -/
inductive LogEmit where
  | newLine (line : String)
  | latest (line : String)
deriving DecidableEq, Repr

/-- The emission decision of one tick, from the previous and current line
lists.  Mirrors commands.rs:602-634: if the fresh fetch has strictly more
lines, print each new suffix line that is not whitespace-only (the source does
this in a loop, setting `new_content` per printed line; the pair below fuses
that loop); otherwise, when both line lists are non-empty and the last lines
differ, print one `Latest:` notice.  The `Bool` is the loop's `new_content`. -/
def tickEmits (lastLines currentLines : List String) : List LogEmit × Bool :=
  if lastLines.length < currentLines.length then
    let fresh := (currentLines.drop lastLines.length).filter
      (fun l => !(rustTrim l).isEmpty)
    (fresh.map LogEmit.newLine, !fresh.isEmpty)
  else if !lastLines.isEmpty && !currentLines.isEmpty then
    let lastLine := lastLines.getLastD ""
    let currentLastLine := currentLines.getLastD ""
    if lastLine = currentLastLine then ([], false)
    else ([LogEmit.latest currentLastLine], true)
  else ([], false)

/-- One poll tick of the follow loop (commands.rs:594-639) as a pure function
of the cursor `lastLogs` and the freshly fetched text: the emitted lines and
the cursor after the tick (`last_logs` is reassigned only when `new_content`
was set). -/
def logsTick (lastLogs currentLogs : String) : List LogEmit × String :=
  if (rustTrim currentLogs).isEmpty then ([], lastLogs)
  else
    let currentLines := rustLines currentLogs
    let lastLines := rustLines lastLogs
    if currentLines.isEmpty then ([], lastLogs)
    else
      let (emits, newContent) := tickEmits lastLines currentLines
      (emits, if newContent then currentLogs else lastLogs)

/-- Run the follow loop over a sequence of fetch results, starting from the
baseline text of the initial fetch (commands.rs:584); returns the lines
emitted on each tick and the final cursor. -/
def logsFollowRun (initial : String) (fetches : List String) :
    List (List LogEmit) × String :=
  match fetches with
  | [] => ([], initial)
  | f :: fs =>
    let t := logsTick initial f
    let r := logsFollowRun t.2 fs
    (t.1 :: r.1, r.2)

/-! ### Application name validation (`utils::validate_app_name`, utils.rs:111-141) -/

/-- `validate_app_name` translated clause by clause.  Rust `name.len()` is the
UTF-8 byte length, `is_ascii_lowercase`/`is_ascii_digit` are the ASCII
classes (Lean's `Char.isLower`/`Char.isDigit` test the same ranges), and
`starts_with('-')`/`ends_with('-')` test the first/last character. -/
def validate_app_name (name : String) : Except String Unit :=
  if name.isEmpty then
    Except.error "App name cannot be empty"
  else if 63 < name.utf8ByteSize then
    Except.error "App name too long (max 63 characters)"
  else if !(name.data.all fun c => c.isLower || c.isDigit || c = '-') then
    Except.error "App name must contain only lowercase letters, numbers, and hyphens"
  else if name.data.head? = some '-' || name.data.getLast? = some '-' then
    Except.error "App name cannot start or end with a hyphen"
  else
    Except.ok ()

/-! ### Package manager detection and build stage (`builder.rs`) -/

/-- Presence of the project's files as seen by the packager: the three lock
files, `node_modules`, and predicates for the conventional source directories
(`exists() && is_dir()`) and entry-point files (`exists() && is_file()`). -/
structure ProjFiles where
  pkgLock : Bool
  yarnLock : Bool
  pnpmLock : Bool
  nodeModules : Bool
  dirExists : String → Bool
  fileExists : String → Bool

/-- `ProjectBuilder::detect_package_manager` (builder.rs:180-189): probe
`yarn.lock`, then `pnpm-lock.yaml`, defaulting to `npm`. -/
def detect_package_manager (p : ProjFiles) : String :=
  if p.yarnLock then "yarn"
  else if p.pnpmLock then "pnpm"
  else "npm"

/-- The install command argument list per package manager
(builder.rs:150-163). -/
def install_args (packageManager : String) : List String :=
  match packageManager with
  | "npm" => ["install", "--production"]
  | "yarn" => ["install", "--production"]
  | "pnpm" => ["install", "--prod"]
  | _ => ["install", "--production"]

/-- The build-script command argument list per package manager
(builder.rs:219-232).  Every arm of the source `match` passes
`["run", "build"]`, regardless of which script was found. -/
def build_script_args (packageManager : String) : List String :=
  match packageManager with
  | "npm" => ["run", "build"]
  | "yarn" => ["run", "build"]
  | "pnpm" => ["run", "build"]
  | _ => ["run", "build"]

/-- The script `run_build_script` (builder.rs:191-249) selects from the
manifest: `scripts.get("build")`, else `"compile"`, else `"prepare"`.
The scripts mapping is modelled as an association list with unique keys. -/
def selected_build_script (scripts : List (String × String)) : Option String :=
  (scripts.lookup "build").orElse fun _ =>
    (scripts.lookup "compile").orElse fun _ => scripts.lookup "prepare"

/-- The subprocess command `run_build_script` invokes, or `none` for the
no-op cases (no scripts mapping, or no candidate script defined). -/
def run_build_script_cmd (scripts : Option (List (String × String)))
    (packageManager : String) : Option (String × List String) :=
  match scripts with
  | none => none
  | some scr =>
    match selected_build_script scr with
    | none => none
    | some _ => some (packageManager, build_script_args packageManager)

/-! ### Dependency installation (`install_dependencies`, builder.rs:125-178) -/

/-- Externally visible side effects of the client, in order of occurrence. -/
inductive Event where
  | subprocess (cmd : String) (args : List String)
  | network (op : String)
  | confirmPrompt
  | artifactCreated
  | artifactRemoved
deriving DecidableEq, Repr

/-- Is the event a subprocess spawn? -/
def Event.isSubprocess : Event → Bool
  | .subprocess _ _ => true
  | _ => false

/-- Is the event a network call? -/
def Event.isNetwork : Event → Bool
  | .network _ => true
  | _ => false

/-- Number of package-manager subprocess invocations in a trace. -/
def subprocessCount (events : List Event) : Nat :=
  events.countP (fun e => e.isSubprocess)

/-- State of the dependency cache directory: whether `node_modules` exists
and how many directory entries `read_dir` yields for it. -/
structure InstallFs where
  nmExists : Bool
  nmCount : Nat
deriving DecidableEq, Repr

/-- Oracle for the fallible operations of one `install_dependencies` call:
whether `read_dir(node_modules)` succeeds, whether the spawned install exits
zero, and how many entries `node_modules` holds after a successful install. -/
structure InstallEnv where
  readDirOk : Bool
  installExitOk : Bool
  postCount : Nat

/-- Stage-level errors of the build pipeline. -/
inductive BuildErr where
  | io
  | dependencyInstall
  | buildScript
deriving DecidableEq, Repr

/-- `install_dependencies` (builder.rs:125-178): skip when `node_modules`
exists and is non-empty; otherwise spawn the detected package manager's
install command.  Returns the result, the event trace and the cache state
after the call. -/
def install_dependencies (p : ProjFiles) (fs : InstallFs) (env : InstallEnv) :
    Except BuildErr Unit × List Event × InstallFs :=
  let pm := detect_package_manager p
  let doInstall : Except BuildErr Unit × List Event × InstallFs :=
    if env.installExitOk then
      (Except.ok (), [Event.subprocess pm (install_args pm)],
        { nmExists := true, nmCount := env.postCount })
    else
      (Except.error BuildErr.dependencyInstall,
        [Event.subprocess pm (install_args pm)], fs)
  if fs.nmExists then
    if !env.readDirOk then (Except.error BuildErr.io, [], fs)
    else if 0 < fs.nmCount then (Except.ok (), [], fs)
    else doInstall
  else doInstall

/-! ### Artifact packaging (`create_artifact`, builder.rs:251-307) -/

/-- The archive entry names, in the order `create_artifact` appends them:
`package.json` always, each lock file if present, `node_modules` if present,
the fixed source-directory list, and the fixed entry-point file list. -/
def archiveEntries (p : ProjFiles) : List String :=
  ["package.json"]
    ++ (if p.pkgLock then ["package-lock.json"] else [])
    ++ (if p.yarnLock then ["yarn.lock"] else [])
    ++ (if p.pnpmLock then ["pnpm-lock.yaml"] else [])
    ++ (if p.nodeModules then ["node_modules"] else [])
    ++ (["src", "lib", "dist", "build", "public", "views"].filter p.dirExists)
    ++ (["index.js", "server.js", "app.js", "main.js", ".env.example"].filter
          p.fileExists)

/-- Filesystem oracle for one `create_artifact` call: whether `File::create`
succeeds, whether the `k`-th append to the tar stream fails, and whether
`tar.finish()` succeeds. -/
structure PackIo where
  createOk : Bool
  appendFails : Nat → Bool
  finishOk : Bool

/-- Sequentially append the entries; the first failing append aborts with the
propagated IO error (`?` in the source). -/
def append_entries : List String → Nat → (Nat → Bool) → Except Unit (List String)
  | [], _, _ => Except.ok []
  | e :: es, k, fails =>
    if fails k then Except.error ()
    else (append_entries es (k + 1) fails).map (e :: ·)

/-- `create_artifact` (builder.rs:251-307): create the archive file, append
the entries, finish the stream.  The second component records whether the
archive file exists on the filesystem when the function returns: the file is
created up front by `File::create` and no path of the function removes it. -/
def create_artifact (p : ProjFiles) (io : PackIo) :
    Except Unit (List String) × Bool :=
  if !io.createOk then (Except.error (), false)
  else
    match append_entries (archiveEntries p) 0 io.appendFails with
    | Except.error () => (Except.error (), true)
    | Except.ok es =>
      if io.finishOk then (Except.ok es, true) else (Except.error (), true)

/-! ### The deploy pipeline (`deploy_command`, commands.rs:344-484)

Each fallible collaborator call (config load, manifest read, network request,
subprocess, filesystem operation) is resolved by a `Bool` oracle in
`DeployEnv`; `deploy_command` mirrors the source's early-return control flow
and records the trace of externally visible effects. -/

/-- The operation at which a pipeline run fails. -/
inductive Stage where
  | loadConfig
  | projectInit
  | findApp
  | createApp
  | dependencyInstall
  | buildScript
  | packageCreate
  | packageWrite
  | metadataRead
  | upload
  | register
  | removeArtifact
deriving DecidableEq, Repr

/-- Terminal outcome of one `deploy_command` invocation.  `notAuthenticated`
and `cancelled` are clean early exits (the source returns `Ok(())` after
printing a message). -/
inductive DeployOutcome where
  | notAuthenticated
  | invalidName (msg : String)
  | cancelled
  | failed (s : Stage)
  | success
deriving DecidableEq, Repr

/-- Result of one `deploy_command` run: the outcome, whether the temporary
artifact archive exists on the filesystem after the return, and the event
trace. -/
structure DeployResult where
  outcome : DeployOutcome
  artifactExists : Bool
  events : List Event
deriving DecidableEq, Repr

/-- Oracles and inputs for one `deploy_command` run. -/
structure DeployEnv where
  configOk : Bool
  authenticated : Bool
  projectOk : Bool
  nameArg : Option String
  pkgName : String
  force : Bool
  findAppOk : Bool
  appExists : Bool
  confirmYes : Bool
  createAppOk : Bool
  files : ProjFiles
  installFs : InstallFs
  installEnv : InstallEnv
  scripts : Option (List (String × String))
  scriptExitOk : Bool
  packIo : PackIo
  metadataOk : Bool
  uploadOk : Bool
  registerOk : Bool
  removeOk : Bool

/-- The tail of the pipeline from artifact packaging on
(commands.rs:422-457): `builder.create_artifact`, `fs::metadata` for the size
display, the presigned S3 upload, `deploy_application`, and the final
`fs::remove_file` — the only removal of the artifact in the whole function. -/
def deploy_from_packaging (env : DeployEnv) (evs : List Event) : DeployResult :=
  let pack := create_artifact env.files env.packIo
  let evs := evs ++ (if env.packIo.createOk then [Event.artifactCreated] else [])
  match pack.1 with
  | Except.error _ =>
    ⟨DeployOutcome.failed
      (if env.packIo.createOk then Stage.packageWrite else Stage.packageCreate),
     pack.2, evs⟩
  | Except.ok _ =>
    if !env.metadataOk then ⟨DeployOutcome.failed Stage.metadataRead, pack.2, evs⟩
    else
      let evs := evs ++ [Event.network "upload_artifact"]
      if !env.uploadOk then ⟨DeployOutcome.failed Stage.upload, pack.2, evs⟩
      else
        let evs := evs ++ [Event.network "deploy_application"]
        if !env.registerOk then ⟨DeployOutcome.failed Stage.register, pack.2, evs⟩
        else if !env.removeOk then
          ⟨DeployOutcome.failed Stage.removeArtifact, pack.2, evs⟩
        else ⟨DeployOutcome.success, false, evs ++ [Event.artifactRemoved]⟩

/-- `deploy_command` (commands.rs:344-484): config load and authentication
guard, project introspection, name validation, application resolution with
confirmation, application creation, then `builder.build` (dependency install,
build script, packaging) and the shipping stages. -/
def deploy_command (env : DeployEnv) : DeployResult :=
  if !env.configOk then ⟨DeployOutcome.failed Stage.loadConfig, false, []⟩
  else if !env.authenticated then ⟨DeployOutcome.notAuthenticated, false, []⟩
  else if !env.projectOk then ⟨DeployOutcome.failed Stage.projectInit, false, []⟩
  else
    match validate_app_name (env.nameArg.getD env.pkgName) with
    | Except.error msg => ⟨DeployOutcome.invalidName msg, false, []⟩
    | Except.ok _ =>
      let evs := [Event.network "list_applications"]
      if !env.findAppOk then ⟨DeployOutcome.failed Stage.findApp, false, evs⟩
      else
        let evs := evs ++
          (if env.appExists && !env.force then [Event.confirmPrompt] else [])
        if env.appExists && !env.force && !env.confirmYes then
          ⟨DeployOutcome.cancelled, false, evs⟩
        else
          let evs := evs ++
            (if env.appExists then [] else [Event.network "create_application"])
          if !env.appExists && !env.createAppOk then
            ⟨DeployOutcome.failed Stage.createApp, false, evs⟩
          else
            let inst := install_dependencies env.files env.installFs env.installEnv
            let evs := evs ++ inst.2.1
            match inst.1 with
            | Except.error _ =>
              ⟨DeployOutcome.failed Stage.dependencyInstall, false, evs⟩
            | Except.ok _ =>
              match run_build_script_cmd env.scripts (detect_package_manager env.files) with
              | some cmd =>
                let evs := evs ++ [Event.subprocess cmd.1 cmd.2]
                if !env.scriptExitOk then
                  ⟨DeployOutcome.failed Stage.buildScript, false, evs⟩
                else deploy_from_packaging env evs
              | none => deploy_from_packaging env evs

/-! ### Storage key derivation (`S3Uploader::upload_artifact`, s3_uploader.rs:73-141) -/

/-- The decimal digit characters of `n`, most significant first, as printed
by `format!("{}", n)` / `Nat.repr`. -/
def decDigits (n : Nat) : List Char :=
  if n / 10 = 0 then [Nat.digitChar (n % 10)]
  else decDigits (n / 10) ++ [Nat.digitChar (n % 10)]
decreasing_by
  exact Nat.div_lt_self (Nat.pos_of_ne_zero fun h => by simp [h] at *) (by omega)

/-- The storage key derived at s3_uploader.rs:83-88:
`artifacts/<app_id>/<version>/<unix_timestamp>.tar.gz`.  The application id
(a UUID) and version are modelled as their display strings; the `chrono`
unix timestamp (non-negative in any reachable present) as a `Nat`. -/
def derive_s3_key (appId version : String) (timestamp : Nat) : String :=
  "artifacts/" ++ appId ++ "/" ++ version ++ "/" ++ Nat.repr timestamp ++ ".tar.gz"

/-! ### Fetching logs (`ApiClient::get_logs_with_follow`, api.rs:304-352) -/

/-- A `serde_json::Value`, as far as the log endpoint handling inspects it. -/
inductive Json where
  | null
  | bool (b : Bool)
  | num (n : Int)
  | str (s : String)
  | arr (elems : List Json)
  | obj (fields : List (String × Json))

/-- `serde_json::Value::get(key)` on an object (field lookup); `None` on any
other shape. -/
def Json.get? : Json → String → Option Json
  | .obj fields, key => fields.lookup key
  | _, _ => none

/-- `Value::as_array`. -/
def Json.asArray : Json → Option (List Json)
  | .arr elems => some elems
  | _ => none

/-- `Value::as_str`. -/
def Json.asStr : Json → Option String
  | .str s => some s
  | _ => none

/-- The response handling of `get_logs_with_follow` (api.rs:332-351), given
the HTTP status (success or not, with the numeric code) and the parsed JSON
body: on success, join the string elements of the `logs` array with `\n`,
or return the literal `"No logs found"` when the body has no `logs` array;
on a non-success status, fail with an API error. -/
def get_logs_response (statusSuccess : Bool) (statusCode : Nat) (body : Json) :
    Except (Nat × String) String :=
  if statusSuccess then
    match (body.get? "logs").bind Json.asArray with
    | some logsArray =>
      Except.ok (String.intercalate "\n" (logsArray.filterMap Json.asStr))
    | none => Except.ok "No logs found"
  else Except.error (statusCode, "Failed to fetch logs")

/-! ### Decimal representation lemmas (for the storage key claims) -/

/-- Unfolding equation for `decDigits`. -/
theorem decDigits_eq (n : Nat) : decDigits n =
    if n / 10 = 0 then [Nat.digitChar (n % 10)]
    else decDigits (n / 10) ++ [Nat.digitChar (n % 10)] := by
  rw [decDigits]

/-- A decimal representation is never empty. -/
theorem decDigits_ne_nil (n : Nat) : decDigits n ≠ [] := by
  rw [decDigits_eq]
  split <;> simp

/-- `Nat.digitChar` is injective below the base. -/
theorem digitChar_inj {a b : Nat} (ha : a < 10) (hb : b < 10)
    (h : Nat.digitChar a = Nat.digitChar b) : a = b := by
  interval_cases a <;> interval_cases b <;> revert h <;> decide

/-- Two numbers with the same decimal representation are equal. -/
theorem decDigits_inj : ∀ a b : Nat, decDigits a = decDigits b → a = b := by
  intro a
  induction a using Nat.strong_induction_on with
  | _ a ih =>
    intro b h
    rw [decDigits_eq a, decDigits_eq b] at h
    by_cases h1 : a / 10 = 0 <;> by_cases h2 : b / 10 = 0
    · simp only [h1, h2, if_pos] at h
      have := digitChar_inj (Nat.mod_lt _ (by omega)) (Nat.mod_lt _ (by omega))
        (List.singleton_injective h)
      omega
    · simp only [h1, h2, if_pos, if_neg, not_false_iff] at h
      obtain ⟨c, cs, hc⟩ := List.exists_cons_of_ne_nil (decDigits_ne_nil (b / 10))
      rw [hc] at h
      simp at h
    · simp only [h1, h2, if_pos, if_neg, not_false_iff] at h
      obtain ⟨c, cs, hc⟩ := List.exists_cons_of_ne_nil (decDigits_ne_nil (a / 10))
      rw [hc] at h
      simp at h
    · simp only [h1, h2, if_neg, not_false_iff] at h
      have hrev := congrArg List.reverse h
      simp only [List.reverse_append, List.reverse_singleton, List.singleton_append] at hrev
      have hhead : Nat.digitChar (a % 10) = Nat.digitChar (b % 10) := by
        injection hrev
      have htail : (decDigits (a / 10)).reverse = (decDigits (b / 10)).reverse := by
        injection hrev
      have hmod := digitChar_inj (Nat.mod_lt _ (by omega)) (Nat.mod_lt _ (by omega)) hhead
      have hdivlt : a / 10 < a := Nat.div_lt_self (by omega) (by omega)
      have hdiv := ih (a / 10) hdivlt (b / 10) (List.reverse_injective htail)
      omega

/-- With enough fuel, `Nat.toDigitsCore` computes `decDigits`. -/
theorem toDigitsCore_eq_decDigits :
    ∀ (fuel n : Nat) (ds : List Char), n < fuel →
      Nat.toDigitsCore 10 fuel n ds = decDigits n ++ ds := by
  intro fuel
  induction fuel with
  | zero => intro n ds h; omega
  | succ fuel ih =>
    intro n ds h
    rw [Nat.toDigitsCore]
    by_cases h0 : n / 10 = 0
    · simp [h0, decDigits_eq n]
    · have hlt : n / 10 < fuel := by
        have : n / 10 < n := Nat.div_lt_self (by omega) (by omega)
        omega
      simp only [h0, if_neg, not_false_iff]
      rw [ih (n / 10) _ hlt, decDigits_eq n]
      simp [h0]

/-- `Nat.repr` prints the decimal representation. -/
theorem natRepr_data (n : Nat) : (Nat.repr n).data = decDigits n := by
  show ((Nat.toDigits 10 n).asString).data = decDigits n
  rw [Nat.toDigits, toDigitsCore_eq_decDigits (n + 1) n [] (by omega)]
  simp [List.asString]

/-- Decimal printing of naturals is injective. -/
theorem natRepr_inj {a b : Nat} (h : Nat.repr a = Nat.repr b) : a = b :=
  decDigits_inj a b (by rw [← natRepr_data, ← natRepr_data, h])

/-! ### Log synchronizer lemmas -/

/-- The follow loop's `new_content` flag is set exactly when something was
printed on the tick. -/
theorem tickEmits_newContent (lastLines currentLines : List String) :
    (tickEmits lastLines currentLines).2
      = !(tickEmits lastLines currentLines).1.isEmpty := by
  unfold tickEmits
  split
  · generalize List.filter (fun l => !(rustTrim l).isEmpty)
      (List.drop lastLines.length currentLines) = fresh
    cases fresh <;> simp
  · split
    · dsimp only
      split <;> simp
    · simp

/-- `rustLinesCore` yields at least one line unless both the input and the
accumulator are empty. -/
theorem rustLinesCore_ne_nil :
    ∀ (cs acc : List Char), cs ≠ [] ∨ acc ≠ [] → rustLinesCore cs acc ≠ [] := by
  intro cs
  induction cs with
  | nil =>
    intro acc h
    rcases h with h | h
    · exact absurd rfl h
    · simp [rustLinesCore, h]
  | cons c rest ih =>
    intro acc _
    by_cases hc : c = '\n'
    · simp [rustLinesCore, hc]
    · simpa [rustLinesCore, hc] using ih (c :: acc) (Or.inr (by simp))

/-- A string whose trim is non-empty splits into at least one line. -/
theorem rustLines_ne_nil_of_trim {s : String}
    (h : (rustTrim s).isEmpty = false) : (rustLines s).isEmpty = false := by
  have hs : s.data ≠ [] := by
    intro hd
    cases s with
    | mk data =>
      simp only at hd
      subst hd
      have htrue : (rustTrim (String.mk [])).isEmpty = true := by decide
      simp [htrue] at h
  have := rustLinesCore_ne_nil s.data [] (Or.inl hs)
  simpa [rustLines, List.isEmpty_iff] using this

/-- C7: on every poll tick of the log tail synchronizer, the cursor is
updated to the freshly fetched text iff something was emitted on that tick;
in particular on a tick whose fetch returned empty or whitespace-only text
nothing is emitted and the cursor is unchanged. -/
theorem C7_cursor_update_iff_emitted (lastLogs currentLogs : String) :
    ((logsTick lastLogs currentLogs).1 = [] →
      (logsTick lastLogs currentLogs).2 = lastLogs)
    ∧ ((logsTick lastLogs currentLogs).1 ≠ [] →
      (logsTick lastLogs currentLogs).2 = currentLogs)
    ∧ ((rustTrim currentLogs).isEmpty = true →
      (logsTick lastLogs currentLogs).1 = []
      ∧ (logsTick lastLogs currentLogs).2 = lastLogs) := by
  by_cases h1 : (rustTrim currentLogs).isEmpty
  · simp [logsTick, h1]
  · by_cases h2 : (rustLines currentLogs).isEmpty
    · simp [logsTick, h1, h2]
    · have hnc := tickEmits_newContent (rustLines lastLogs) (rustLines currentLogs)
      rcases hte : tickEmits (rustLines lastLogs) (rustLines currentLogs) with ⟨em, nc⟩
      rw [hte] at hnc
      cases em <;> simp_all [logsTick, h1, h2, hte]

/-- Witness for C7 at concrete ticks: an emitting tick moves the cursor, a
whitespace-only fetch leaves it unchanged. -/
theorem C7_witness :
    ((logsTick "a" "a\nb").1 ≠ [] ∧ (logsTick "a" "a\nb").2 = "a\nb")
    ∧ ((rustTrim " ").isEmpty = true ∧ (logsTick "a" " ").1 = []
        ∧ (logsTick "a" " ").2 = "a") :=
  ⟨⟨by decide, (C7_cursor_update_iff_emitted "a" "a\nb").2.1 (by decide)⟩,
   ⟨by decide, (C7_cursor_update_iff_emitted "a" " ").2.2 (by decide)⟩⟩

/-- C2: on a tick where the fresh fetch has strictly more lines than the
cursor, everything emitted is a new-line emission of a line from the suffix
beyond the previous count; and on the fetch sequence `["a"]`, `["a","b"]`,
`["a","b","c"]` the loop (baseline `"a"`, then two ticks) emits exactly
`"b"` then `"c"` and never re-emits `"a"`. -/
theorem C2_suffix_only_emission :
    (∀ lastLogs currentLogs : String, ∀ e ∈ (logsTick lastLogs currentLogs).1,
      (rustLines lastLogs).length < (rustLines currentLogs).length →
      e ∈ ((rustLines currentLogs).drop
            (rustLines lastLogs).length).map LogEmit.newLine)
    ∧ (logsFollowRun "a" ["a\nb", "a\nb\nc"]).1
        = [[LogEmit.newLine "b"], [LogEmit.newLine "c"]]
    ∧ LogEmit.newLine "a" ∉ (logsFollowRun "a" ["a\nb", "a\nb\nc"]).1.flatten := by
  refine ⟨?_, by decide, by decide⟩
  intro lastLogs currentLogs e he hlt
  by_cases h1 : (rustTrim currentLogs).isEmpty
  · simp [logsTick, h1] at he
  · by_cases h2 : (rustLines currentLogs).isEmpty
    · simp [logsTick, h1, h2] at he
    · rcases hte : tickEmits (rustLines lastLogs) (rustLines currentLogs) with ⟨em, nc⟩
      have hb := hte
      rw [tickEmits, if_pos hlt] at hb
      injection hb with hbe hbn
      simp only [logsTick, h1, h2, hte, if_false, Bool.false_eq_true] at he
      rw [← hbe] at he
      rcases List.mem_map.mp he with ⟨l, hl, rfl⟩
      exact List.mem_map.mpr ⟨l, List.mem_of_mem_filter hl, rfl⟩

/-- Witness for C2's universally quantified part at a concrete tick. -/
theorem C2_witness :
    LogEmit.newLine "b" ∈ (logsTick "a" "a\nb").1
    ∧ (rustLines "a").length < (rustLines "a\nb").length
    ∧ LogEmit.newLine "b"
        ∈ ((rustLines "a\nb").drop (rustLines "a").length).map LogEmit.newLine :=
  ⟨by decide, by decide,
   C2_suffix_only_emission.1 "a" "a\nb" (LogEmit.newLine "b") (by decide) (by decide)⟩

/-- C3 counterexample: the tick `lastLogs = "a"`, fetched text `" "` has
equal line counts (one each) and a changed last line (`" "` vs `"a"`), yet
the loop emits nothing — the whitespace-only guard at the top of the tick
(commands.rs:596) skips the fetch before the "latest changed" comparison, so
the claimed "emits exactly one notice" fails. -/
theorem C3_counterexample :
    (rustLines " ").length ≤ (rustLines "a").length
    ∧ (rustLines " ").getLastD "" ≠ (rustLines "a").getLastD ""
    ∧ (logsTick "a" " ").1 = [] := by decide

/-- C3 amended: on every poll tick whose fetched text is not whitespace-only,
if the fetched line count is at most the previous count and the fetched last
line differs from the previously observed last line, the synchronizer emits
exactly one "latest changed" notice referencing the new last line (and the
cursor moves to the fresh text); whitespace-only fetches are skipped
entirely. -/
theorem C3_latest_notice_amended (lastLogs currentLogs : String)
    (hblank : (rustTrim currentLogs).isEmpty = false)
    (hlast : (rustLines lastLogs).isEmpty = false)
    (hle : (rustLines currentLogs).length ≤ (rustLines lastLogs).length)
    (hdiff : (rustLines currentLogs).getLastD ""
      ≠ (rustLines lastLogs).getLastD "") :
    (logsTick lastLogs currentLogs).1
      = [LogEmit.latest ((rustLines currentLogs).getLastD "")]
    ∧ (logsTick lastLogs currentLogs).2 = currentLogs := by
  have h2 : (rustLines currentLogs).isEmpty = false :=
    rustLines_ne_nil_of_trim hblank
  have hnlt : ¬ (rustLines lastLogs).length < (rustLines currentLogs).length := by
    omega
  have hne : ¬ ((rustLines lastLogs).getLastD ""
      = (rustLines currentLogs).getLastD "") := fun h => hdiff h.symm
  rcases hte : tickEmits (rustLines lastLogs) (rustLines currentLogs) with ⟨em, nc⟩
  have hb := hte
  rw [tickEmits, if_neg hnlt, if_pos (by simp [hlast, h2])] at hb
  dsimp only at hb
  rw [if_neg hne] at hb
  injection hb with hbe hbn
  constructor <;> simp [logsTick, hblank, h2, hte, ← hbe, ← hbn]

/-- Witness for the amended C3 at the claim's own scenario: cursor
`"a\nb\nc"`, fetch `"c\nd"` emits one notice for `"d"`. -/
theorem C3_witness :
    (rustTrim "c\nd").isEmpty = false
    ∧ (rustLines "a\nb\nc").isEmpty = false
    ∧ (rustLines "c\nd").length ≤ (rustLines "a\nb\nc").length
    ∧ (rustLines "c\nd").getLastD "" ≠ (rustLines "a\nb\nc").getLastD ""
    ∧ (logsTick "a\nb\nc" "c\nd").1 = [LogEmit.latest "d"]
    ∧ (logsTick "a\nb\nc" "c\nd").2 = "c\nd" := by
  refine ⟨by decide, by decide, by decide, by decide, ?_⟩
  have h := C3_latest_notice_amended "a\nb\nc" "c\nd"
    (by decide) (by decide) (by decide) (by decide)
  have hd : (rustLines "c\nd").getLastD "" = "d" := by decide
  rw [hd] at h
  exact h

/-! ### Concrete fixtures for witnesses and counterexamples -/

/-- A typical Node project: `package-lock.json` and `node_modules` present,
one `src` directory, one `index.js` entry point. -/
def demoFiles : ProjFiles :=
  ⟨true, false, false, true, fun d => d == "src", fun f => f == "index.js"⟩

/-- A populated dependency cache (`node_modules` with three entries). -/
def populatedCache : InstallFs := ⟨true, 3⟩

/-- An install oracle where every operation succeeds. -/
def okInstallEnv : InstallEnv := ⟨true, true, 5⟩

/-- C4: for the manifest whose scripts mapping defines only `compile`, the
build-stage runner selects `compile` (the first defined candidate among
`build`, `compile`, `prepare`), yet the subprocess it invokes is
`npm run build`, not `npm run compile`: every arm of the package-manager
match at builder.rs:219-232 hardcodes `["run", "build"]`, ignoring the
selected script. -/
theorem C4_run_build_script_ignores_selection :
    selected_build_script [("compile", "tsc")] = some "tsc"
    ∧ run_build_script_cmd (some [("compile", "tsc")]) "npm"
        = some ("npm", ["run", "build"])
    ∧ ("npm", ["run", "build"]) ≠ ("npm", ["run", "compile"])
    ∧ run_build_script_cmd none "npm" = none
    ∧ run_build_script_cmd (some [("test", "jest")]) "npm" = none := by decide

/-- C5 counterexample: with the archive file created and the very first
append failing, `create_artifact` returns the propagated IO error but the
partially-written archive file still exists — no path of
builder.rs:251-307 removes it. -/
theorem C5_counterexample :
    (create_artifact demoFiles ⟨true, fun k => k == 0, true⟩).1 = Except.error ()
    ∧ (create_artifact demoFiles ⟨true, fun k => k == 0, true⟩).2 = true := by
  decide

/-- C5 amended: if a filesystem error occurs while reading project files or
writing the archive after the archive file has been created, the packager
fails with an IO error but the partially-written archive file is left on the
filesystem (it is not removed). -/
theorem C5_partial_archive_left (p : ProjFiles) (io : PackIo)
    (hcreate : io.createOk = true)
    (hfail : (create_artifact p io).1 = Except.error ()) :
    (create_artifact p io).2 = true := by
  unfold create_artifact at hfail ⊢
  simp only [hcreate, Bool.not_true, Bool.false_eq_true, if_false] at hfail ⊢
  split <;> [simp_all; split <;> simp_all]

/-- Witness for the amended C5 at the failing-append fixture. -/
theorem C5_witness :
    (⟨true, fun k => k == 0, true⟩ : PackIo).createOk = true
    ∧ (create_artifact demoFiles ⟨true, fun k => k == 0, true⟩).1 = Except.error ()
    ∧ (create_artifact demoFiles ⟨true, fun k => k == 0, true⟩).2 = true :=
  ⟨by decide, by decide,
   C5_partial_archive_left demoFiles ⟨true, fun k => k == 0, true⟩ (by decide)
     (by decide)⟩

/-- C6 counterexample: on a project whose `node_modules` is already
populated, the first `install_dependencies` call already takes the
idempotent-skip path (builder.rs:129-133) and spawns no subprocess, so two
calls in a row perform zero package-manager invocations — not exactly one. -/
theorem C6_counterexample :
    subprocessCount (install_dependencies demoFiles populatedCache okInstallEnv).2.1 = 0
    ∧ subprocessCount
        ((install_dependencies demoFiles populatedCache okInstallEnv).2.1
          ++ (install_dependencies demoFiles
                (install_dependencies demoFiles populatedCache okInstallEnv).2.2
                okInstallEnv).2.1) = 0
    ∧ ¬ subprocessCount
        ((install_dependencies demoFiles populatedCache okInstallEnv).2.1
          ++ (install_dependencies demoFiles
                (install_dependencies demoFiles populatedCache okInstallEnv).2.2
                okInstallEnv).2.1) = 1 := by decide

/-- C6 amended: invoking `install_dependencies` twice in a row on a project
whose `node_modules` is already populated results in zero package-manager
subprocess invocations — both calls are idempotent skips that succeed and
leave the cache state unchanged. -/
theorem C6_idempotent_skip_amended (p : ProjFiles) (fs : InstallFs)
    (e1 e2 : InstallEnv) (hex : fs.nmExists = true) (hcnt : 0 < fs.nmCount)
    (hrd1 : e1.readDirOk = true) (hrd2 : e2.readDirOk = true) :
    install_dependencies p fs e1 = (Except.ok (), [], fs)
    ∧ install_dependencies p fs e2 = (Except.ok (), [], fs)
    ∧ subprocessCount (install_dependencies p fs e1).2.1
        + subprocessCount
            (install_dependencies p (install_dependencies p fs e1).2.2 e2).2.1
        = 0 := by
  have h1 : install_dependencies p fs e1 = (Except.ok (), [], fs) := by
    simp [install_dependencies, hex, hcnt, hrd1]
  have h2 : install_dependencies p fs e2 = (Except.ok (), [], fs) := by
    simp [install_dependencies, hex, hcnt, hrd2]
  refine ⟨h1, h2, ?_⟩
  rw [h1]
  simp [h2, subprocessCount]

/-- Witness for the amended C6 at the populated-cache fixture. -/
theorem C6_witness :
    populatedCache.nmExists = true ∧ 0 < populatedCache.nmCount
    ∧ install_dependencies demoFiles populatedCache okInstallEnv
        = (Except.ok (), [], populatedCache) :=
  ⟨by decide, by decide,
   (C6_idempotent_skip_amended demoFiles populatedCache okInstallEnv okInstallEnv
      (by decide) (by decide) (by decide) (by decide)).1⟩

/-- A deploy environment in which every collaborator call succeeds and the
application does not yet exist. -/
def okDeployEnv : DeployEnv := {
  configOk := true, authenticated := true, projectOk := true
  nameArg := some "demo-app", pkgName := "demo-app", force := false
  findAppOk := true, appExists := false, confirmYes := true, createAppOk := true
  files := demoFiles, installFs := populatedCache, installEnv := okInstallEnv
  scripts := some [("build", "tsc")], scriptExitOk := true
  packIo := ⟨true, fun _ => false, true⟩
  metadataOk := true, uploadOk := true, registerOk := true, removeOk := true }

/-- Outcomes after which the temporary artifact archive is left on disk. -/
def artifactLeakOutcomes : List DeployOutcome :=
  [DeployOutcome.failed Stage.packageWrite, DeployOutcome.failed Stage.metadataRead,
   DeployOutcome.failed Stage.upload, DeployOutcome.failed Stage.register,
   DeployOutcome.failed Stage.removeArtifact]

/-- The packaging-onward tail of the pipeline leaves the artifact on disk
exactly on the failure outcomes after the archive file was created. -/
theorem deploy_from_packaging_artifact (env : DeployEnv) (evs : List Event) :
    (deploy_from_packaging env evs).artifactExists = true
      ↔ (deploy_from_packaging env evs).outcome ∈ artifactLeakOutcomes := by
  by_cases hc : env.packIo.createOk
  · cases happ : append_entries (archiveEntries env.files) 0 env.packIo.appendFails with
    | error u =>
      simp [deploy_from_packaging, create_artifact, hc, happ, artifactLeakOutcomes]
    | ok es =>
      by_cases hf : env.packIo.finishOk
      · simp only [deploy_from_packaging, create_artifact, hc, happ, hf,
          Bool.not_true, Bool.false_eq_true, if_false, if_true]
        split_ifs <;> simp [artifactLeakOutcomes]
      · simp [deploy_from_packaging, create_artifact, hc, happ, hf,
          artifactLeakOutcomes]
  · simp [deploy_from_packaging, create_artifact, hc, artifactLeakOutcomes]

/-- C1 counterexample: a run in which every stage succeeds except the S3
upload ends with the artifact archive still on the filesystem — the only
`remove_file` in `deploy_command` is on the success path
(commands.rs:457), so the claimed for-all-outcomes cleanup fails. -/
theorem C1_counterexample :
    (deploy_command { okDeployEnv with uploadOk := false }).outcome
      = DeployOutcome.failed Stage.upload
    ∧ (deploy_command { okDeployEnv with uploadOk := false }).artifactExists
      = true := by decide

/-- C1 amended: the temporary artifact archive is absent after the operation
returns for success, user-declined confirmation (which happens before the
artifact is created) and every failure before packaging; but after a failure
once the archive file has been created — archive-write failure, metadata
read failure, upload failure, registration failure, or removal failure —
the artifact file still exists on the filesystem. -/
theorem C1_artifact_cleanup_amended (env : DeployEnv) :
    (deploy_command env).artifactExists = true
      ↔ (deploy_command env).outcome ∈ artifactLeakOutcomes := by
  unfold deploy_command
  dsimp only
  repeat' split
  all_goals
    first
      | exact deploy_from_packaging_artifact env _
      | simp [artifactLeakOutcomes]

/-- C8: with a loadable config, an authenticated session and a readable
project, a syntactically invalid application name makes `deploy_command`
fail with the invalid-name error with an empty effect trace: no subprocess
is spawned, no network call is made, and no build, upload or registration
side effect occurs (and no artifact exists). -/
theorem C8_invalid_name_no_side_effects (env : DeployEnv) (msg : String)
    (hconf : env.configOk = true) (hauth : env.authenticated = true)
    (hproj : env.projectOk = true)
    (hval : validate_app_name (env.nameArg.getD env.pkgName)
      = Except.error msg) :
    (deploy_command env).outcome = DeployOutcome.invalidName msg
    ∧ (deploy_command env).artifactExists = false
    ∧ (deploy_command env).events = []
    ∧ ∀ e ∈ (deploy_command env).events,
        e.isSubprocess = false ∧ e.isNetwork = false := by
  have hrun : deploy_command env = ⟨DeployOutcome.invalidName msg, false, []⟩ := by
    simp [deploy_command, hconf, hauth, hproj, hval]
  rw [hrun]
  exact ⟨rfl, rfl, rfl, by simp⟩

/-- Witness for C8 on the claim's own input `"-bad-"`. -/
theorem C8_witness :
    validate_app_name "-bad-"
      = Except.error "App name cannot start or end with a hyphen"
    ∧ (deploy_command { okDeployEnv with nameArg := some "-bad-" }).outcome
      = DeployOutcome.invalidName "App name cannot start or end with a hyphen"
    ∧ (deploy_command { okDeployEnv with nameArg := some "-bad-" }).events = [] :=
  ⟨by decide,
   (C8_invalid_name_no_side_effects { okDeployEnv with nameArg := some "-bad-" }
      "App name cannot start or end with a hyphen" rfl rfl rfl (by decide)).1,
   (C8_invalid_name_no_side_effects { okDeployEnv with nameArg := some "-bad-" }
      "App name cannot start or end with a hyphen" rfl rfl rfl (by decide)).2.2.1⟩

/-- C9: the storage key derived for application id `appId`, version
`version` at unix time `t` is `artifacts/<appId>/<version>/<t>.tar.gz`, and
two uploads of the same application and version at distinct timestamps
derive distinct keys. -/
theorem C9_storage_key_format_and_distinct (appId version : String)
    (t1 t2 : Nat) (hne : t1 ≠ t2) :
    derive_s3_key appId version t1
      = "artifacts/" ++ appId ++ "/" ++ version ++ "/" ++ Nat.repr t1 ++ ".tar.gz"
    ∧ derive_s3_key appId version t1 ≠ derive_s3_key appId version t2 := by
  refine ⟨rfl, fun h => hne ?_⟩
  have hd := congrArg String.data h
  simp only [derive_s3_key, String.data_append, List.append_assoc] at hd
  apply decDigits_inj
  rw [← natRepr_data, ← natRepr_data]
  exact List.append_cancel_right
    (List.append_cancel_left (List.append_cancel_left (List.append_cancel_left
      (List.append_cancel_left (List.append_cancel_left hd)))))

/-- Witness for C9 at two concrete timestamps. -/
theorem C9_witness :
    (1759999999 : Nat) ≠ 1760000000
    ∧ derive_s3_key "demo" "1.0.0" 1759999999
      ≠ derive_s3_key "demo" "1.0.0" 1760000000 :=
  ⟨by decide,
   (C9_storage_key_format_and_distinct "demo" "1.0.0" 1759999999 1760000000
      (by decide)).2⟩

/-- C10: on a successful HTTP response, `get_logs_with_follow` returns the
string elements of the body's `logs` array joined with newlines, and when
the body has no `logs` array it returns the literal `"No logs found"` —
a non-empty, non-error string that the follow loop processes like a genuine
log line (a tick from an empty cursor emits it as a new line). -/
theorem C10_get_logs_body_handling (statusCode : Nat) (body : Json) :
    (∀ logsArray, (body.get? "logs").bind Json.asArray = some logsArray →
      get_logs_response true statusCode body
        = Except.ok (String.intercalate "\n" (logsArray.filterMap Json.asStr)))
    ∧ ((body.get? "logs").bind Json.asArray = none →
      get_logs_response true statusCode body = Except.ok "No logs found")
    ∧ ("No logs found" : String) ≠ ""
    ∧ (logsTick "" "No logs found").1 = [LogEmit.newLine "No logs found"] := by
  refine ⟨?_, ?_, by decide, by decide⟩
  · intro logsArray hxs
    simp [get_logs_response, hxs]
  · intro hnone
    simp [get_logs_response, hnone]

/-- Witness for C10 on one body with a `logs` array and one without. -/
theorem C10_witness :
    ((Json.obj [("logs", Json.arr [Json.str "x", Json.str "y"])]).get?
        "logs").bind Json.asArray = some [Json.str "x", Json.str "y"]
    ∧ get_logs_response true 200
        (Json.obj [("logs", Json.arr [Json.str "x", Json.str "y"])])
      = Except.ok (String.intercalate "\n"
          ([Json.str "x", Json.str "y"].filterMap Json.asStr))
    ∧ ((Json.obj [("status", Json.str "ok")]).get? "logs").bind Json.asArray = none
    ∧ get_logs_response true 200 (Json.obj [("status", Json.str "ok")])
      = Except.ok "No logs found" :=
  ⟨rfl,
   (C10_get_logs_body_handling 200
      (Json.obj [("logs", Json.arr [Json.str "x", Json.str "y"])])).1
     [Json.str "x", Json.str "y"] rfl,
   rfl,
   (C10_get_logs_body_handling 200
      (Json.obj [("status", Json.str "ok")])).2.1 rfl⟩

end Aether
